import Mathlib

set_option autoImplicit false

/-
Verification of the BetArxiv ranking/matching core against its design
specification.  The Python sources (src/app/db.py, src/app/api.py,
src/ingest.py) are shallowly embedded below: the document table is a list of
records, SQL predicates become boolean functions on records, `ORDER BY` /
Python `list.sort` become a stable insertion sort, `LIMIT` becomes
`List.take`, and the pgvector distance operator `<=>` is an explicit
function parameter.  Scores are rationals.
-/

namespace BetArxiv

/-- Text is modelled as a list of characters; `str.lower()` / SQL `LOWER`
become a character-wise `Char.toLower`. -/
abbrev Str := List Char

/-- Python `s.lower()` and SQL `LOWER(s)`. -/
def lower (s : Str) : Str := s.map Char.toLower

/-- Auxiliary for substring containment: does `n` occur at the head of `h`. -/
def headMatch : Str → Str → Bool
| [], _ => true
| _ :: _, [] => false
| a :: n, b :: h => a == b && headMatch n h

/-- Python `n in h` and SQL `h LIKE '%n%'`: `n` occurs contiguously in `h`. -/
def isSub (n : Str) : Str → Bool
| [] => headMatch n []
| c :: t => headMatch n (c :: t) || isSub n t

/-- Order-preserving de-duplication keeping first occurrences, with the
already-seen elements accumulated; models Python `dict.fromkeys`. -/
def dedupFirstAux {α : Type} [DecidableEq α] (seen : List α) : List α → List α
| [] => []
| a :: t => if a ∈ seen then dedupFirstAux seen t else a :: dedupFirstAux (a :: seen) t

/-- Python `list(dict.fromkeys(l))`: drop duplicates, keep first occurrences. -/
def dedupFirst {α : Type} [DecidableEq α] (l : List α) : List α := dedupFirstAux [] l

/-- One row of the `papers` table (src/app/db.py). `NULL`-able columns are
`Option`; `created_at` is an abstract timestamp used by `ORDER BY created_at
DESC`; embeddings are rational vectors. -/
structure Doc where
  id : Nat
  title : Str
  abstract : Option Str
  authors : List Str
  keywords : Option (List Str)
  title_embedding : Option (List ℚ)
  abstract_embedding : Option (List ℚ)
  folder_name : Option Str
  publication_year : Option Int
  journal_name : Option Str
  status : Option Str
  created_at : Nat
deriving DecidableEq, Repr

/-- The optional `folder_name = %s` condition appearing in every search. -/
def folderOk (folder_name : Option Str) (d : Doc) : Bool :=
  match folder_name with
  | some f => d.folder_name == some f
  | none => true

/-- The dynamic `filters` dictionary of db.py restricted to its three
recognised keys (`year_of_publication`, `journal_name`, `status`). -/
structure Filters where
  year_of_publication : Option Int
  journal_name : Option Str
  status : Option Str
deriving DecidableEq, Repr

/-- Equality filter conditions added by db.py when a `filters` dict is given. -/
def filtersOk (filters : Option Filters) (d : Doc) : Bool :=
  match filters with
  | none => true
  | some f =>
    (match f.year_of_publication with | some y => d.publication_year == some y | none => true)
    && (match f.journal_name with | some j => d.journal_name == some j | none => true)
    && (match f.status with | some s => d.status == some s | none => true)

/-- Recency order used by `ORDER BY created_at DESC`. -/
def recencyGe (a b : Doc) : Prop := b.created_at ≤ a.created_at

instance : DecidableRel recencyGe :=
  fun a b => inferInstanceAs (Decidable (b.created_at ≤ a.created_at))

instance : IsTotal Doc recencyGe := ⟨fun a b => Nat.le_total b.created_at a.created_at⟩

instance : IsTrans Doc recencyGe := ⟨fun _ _ _ h1 h2 => Nat.le_trans h2 h1⟩

/-- Weight normalization as inlined at the top of
`Database.find_similar_documents` and
`Database.find_similar_documents_by_embeddings` (src/app/db.py):
divide by the sum when it is positive, otherwise fall back to `(0.5, 0.5)`. -/
def normalize_weights (title_weight abstract_weight : ℚ) : ℚ × ℚ :=
  let total_weight := title_weight + abstract_weight
  if 0 < total_weight then
    (title_weight / total_weight, abstract_weight / total_weight)
  else
    ((1 : ℚ)/2, (1 : ℚ)/2)

/-- One row returned by the similarity searches of db.py. -/
structure SimResult where
  id : Nat
  title : Str
  authors : List Str
  title_similarity : ℚ
  abstract_similarity : ℚ
  similarity_score : ℚ
  snippet : Option Str
  folder_name : Option Str
deriving DecidableEq, Repr

/-- `ORDER BY similarity_score DESC` order. -/
def simGe (a b : SimResult) : Prop := b.similarity_score ≤ a.similarity_score

instance : DecidableRel simGe :=
  fun a b => inferInstanceAs (Decidable (b.similarity_score ≤ a.similarity_score))

instance : IsTotal SimResult simGe := ⟨fun a b => le_total b.similarity_score a.similarity_score⟩

instance : IsTrans SimResult simGe := ⟨fun _ _ _ h1 h2 => le_trans h2 h1⟩

/-- The shared similarity SELECT pipeline of both similarity searches in
db.py: keep rows with both embeddings present (plus folder / exclusion
conditions), compute `1 - (embedding <=> query)` component similarities and
their weighted sum, keep rows with `similarity_score >= threshold`
(`HAVING`), sort by score descending (`ORDER BY`) and truncate (`LIMIT`).
`dist` is the store's `<=>` operator. -/
def similarityPipeline (dist : List ℚ → List ℚ → ℚ) (table : List Doc)
    (query_title_emb query_abstract_emb : List ℚ) (limit : Nat) (threshold : ℚ)
    (w : ℚ × ℚ) (include_snippet : Bool) (folder_name : Option Str)
    (exclude_id : Option Nat) : List SimResult :=
  let rows := table.filterMap (fun d =>
    match d.title_embedding, d.abstract_embedding with
    | some te, some ae =>
      if folderOk folder_name d
          && (match exclude_id with | some x => d.id != x | none => true) then
        let ts := 1 - dist te query_title_emb
        let asim := 1 - dist ae query_abstract_emb
        some { id := d.id, title := d.title, authors := d.authors,
               title_similarity := ts, abstract_similarity := asim,
               similarity_score := w.1 * ts + w.2 * asim,
               snippet := if include_snippet then d.abstract.map (fun a => a.take 200) else none,
               folder_name := d.folder_name }
      else none
    | _, _ => none)
  (List.insertionSort simGe
    (rows.filter (fun r => decide (threshold ≤ r.similarity_score)))).take limit

/-- `Database.find_similar_documents_by_embeddings` (src/app/db.py):
normalize the weights, then run the similarity pipeline against the given
query embeddings. -/
def findSimilarByEmbeddings (dist : List ℚ → List ℚ → ℚ) (table : List Doc)
    (title_embedding abstract_embedding : List ℚ) (limit : Nat) (threshold : ℚ)
    (title_weight abstract_weight : ℚ) (include_snippet : Bool)
    (folder_name : Option Str) (exclude_document_id : Option Nat) : List SimResult :=
  similarityPipeline dist table title_embedding abstract_embedding limit threshold
    (normalize_weights title_weight abstract_weight) include_snippet folder_name
    exclude_document_id

/-- Python truthiness of an embedding column value: `None` and the empty
vector are both falsy (`if not ref_title_emb or not ref_abstract_emb`). -/
def truthyEmb : Option (List ℚ) → Option (List ℚ)
| some (x :: xs) => some (x :: xs)
| _ => none

/-- `Database.find_similar_documents` (src/app/db.py): normalize the
weights, look up the reference document, return `[]` when it is missing or
lacks an embedding, otherwise run the (textually duplicated in the source)
similarity pipeline against the reference embeddings, excluding the
reference document itself. -/
def findSimilarDocuments (dist : List ℚ → List ℚ → ℚ) (table : List Doc)
    (document_id : Nat) (limit : Nat) (threshold : ℚ)
    (title_weight abstract_weight : ℚ) (include_snippet : Bool)
    (folder_name : Option Str) : List SimResult :=
  let w := normalize_weights title_weight abstract_weight
  match table.find? (fun d => d.id == document_id) with
  | none => []
  | some ref =>
    match truthyEmb ref.title_embedding, truthyEmb ref.abstract_embedding with
    | some ref_title_emb, some ref_abstract_emb =>
      similarityPipeline dist table ref_title_emb ref_abstract_emb limit threshold
        w include_snippet folder_name (some document_id)
    | _, _ => []

/-- The per-keyword match relation of `Database.search_by_keywords`
(src/app/db.py), identical in the SQL WHERE clause and in the Python
scoring loop: equality for exact matching, containment for fuzzy matching,
both after lower-casing unless case-sensitive. -/
def kwMatch (exact_match case_sensitive : Bool) (q k : Str) : Bool :=
  if exact_match then
    if case_sensitive then q == k else lower q == lower k
  else
    if case_sensitive then isSub q k else isSub (lower q) (lower k)

/-- The keyword part of the SQL WHERE clause of `search_by_keywords`:
`"all"` requires every query keyword to match some document keyword, any
other mode requires at least one query keyword to match. -/
def kwSelect (keywords : List Str) (search_mode : String)
    (exact_match case_sensitive : Bool) (ks : List Str) : Bool :=
  if search_mode = "all" then
    keywords.all (fun q => ks.any (fun k => kwMatch exact_match case_sensitive q k))
  else
    keywords.any (fun q => ks.any (fun k => kwMatch exact_match case_sensitive q k))

/-- The complete WHERE predicate of `search_by_keywords`: non-NULL
`keywords`, folder condition, keyword condition. -/
def kwWherePred (keywords : List Str) (search_mode : String)
    (exact_match case_sensitive : Bool) (folder_name : Option Str) (d : Doc) : Bool :=
  d.keywords.isSome && folderOk folder_name d
    && kwSelect keywords search_mode exact_match case_sensitive (d.keywords.getD [])

/-- The scoring loop of `search_by_keywords`: the document keywords matched
by ANY query keyword, collected in query-keyword-major order and then
de-duplicated keeping first occurrences (`dict.fromkeys`). -/
def matchedKeywordsList (exact_match case_sensitive : Bool)
    (keywords doc_keywords : List Str) : List Str :=
  dedupFirst (keywords.flatMap (fun q =>
    doc_keywords.filter (fun k => kwMatch exact_match case_sensitive q k)))

/-- One row returned by `search_by_keywords`. -/
structure KwResult where
  id : Nat
  title : Str
  authors : List Str
  keywords : List Str
  matched_keywords : List Str
  match_score : ℚ
  snippet : Option Str
  folder_name : Option Str
  abstract : Option Str
deriving DecidableEq, Repr

/-- `sort(key=match_score, reverse=True)` order. -/
def scoreGe (a b : KwResult) : Prop := b.match_score ≤ a.match_score

instance : DecidableRel scoreGe :=
  fun a b => inferInstanceAs (Decidable (b.match_score ≤ a.match_score))

instance : IsTotal KwResult scoreGe := ⟨fun a b => le_total b.match_score a.match_score⟩

instance : IsTrans KwResult scoreGe := ⟨fun _ _ _ h1 h2 => le_trans h2 h1⟩

/-- The per-row post-processing of `search_by_keywords`:
`match_score = len(matched_keywords) / len(keywords)` where
`matched_keywords` are the de-duplicated matched document keywords. -/
def mkKwResult (keywords : List Str) (exact_match case_sensitive include_snippet : Bool)
    (d : Doc) : KwResult :=
  let doc_keywords := d.keywords.getD []
  let matched := matchedKeywordsList exact_match case_sensitive keywords doc_keywords
  { id := d.id, title := d.title, authors := d.authors, keywords := doc_keywords,
    matched_keywords := matched,
    match_score := if keywords.isEmpty then 0 else (matched.length : ℚ) / (keywords.length : ℚ),
    snippet := if include_snippet then d.abstract.map (fun a => a.take 200) else none,
    folder_name := d.folder_name, abstract := d.abstract }

/-- `Database.search_by_keywords` (src/app/db.py): empty query short-circuits
to `[]`; otherwise the SQL selects matching rows ordered by `created_at`
descending truncated to `limit`, and Python computes per-row scores and
re-sorts the fetched rows by score descending (stable). -/
def searchByKeywords (table : List Doc) (keywords : List Str) (search_mode : String)
    (exact_match case_sensitive : Bool) (folder_name : Option Str) (limit : Nat)
    (include_snippet : Bool) : List KwResult :=
  if keywords.isEmpty then []
  else
    let selected := table.filter
      (kwWherePred keywords search_mode exact_match case_sensitive folder_name)
    let rows := (List.insertionSort recencyGe selected).take limit
    List.insertionSort scoreGe
      (rows.map (mkKwResult keywords exact_match case_sensitive include_snippet))

/-- The WHERE predicate of `Database.search_documents` (src/app/db.py):
`LOWER(title) LIKE %q% OR LOWER(abstract) LIKE %q% OR q = ANY(LOWER(authors))
OR q = ANY(LOWER(keywords))` with `q = query.lower()`. -/
def textWherePred (query : Str) (d : Doc) : Bool :=
  let q := lower query
  isSub q (lower d.title)
  || (match d.abstract with | some a => isSub q (lower a) | none => false)
  || d.authors.any (fun a => lower a == q)
  || (match d.keywords with | some ks => ks.any (fun k => lower k == q) | none => false)

/-- One row returned by `search_documents`. -/
structure TextSearchResult where
  id : Nat
  title : Str
  authors : List Str
  similarity_score : ℚ
  snippet : Option Str
deriving DecidableEq, Repr

/-- `Database.search_documents` (src/app/db.py): text predicate plus folder
and equality filters, ordered by `created_at` descending, truncated to `k`,
with a constant `1.0` similarity score and an abstract snippet. -/
def search_documents (table : List Doc) (query : Str) (folder_name : Option Str)
    (k : Nat) (filters : Option Filters) : List TextSearchResult :=
  let selected := table.filter (fun d =>
    textWherePred query d && folderOk folder_name d && filtersOk filters d)
  ((List.insertionSort recencyGe selected).take k).map (fun d =>
    { id := d.id, title := d.title, authors := d.authors, similarity_score := 1,
      snippet := d.abstract.map (fun a => a.take 200) })

/-- Modelled from the spec: the Text Matcher predicate of spec §4.4
("document matches if `query` occurs (case-insensitively) in `title`, or in
`abstract`, or in any entry of `authors`"), stated for comparison with the
source predicate `textWherePred`. -/
def textMatches_spec (d : Doc) (query : Str) : Bool :=
  let q := lower query
  isSub q (lower d.title)
  || (match d.abstract with | some a => isSub q (lower a) | none => false)
  || d.authors.any (fun a => isSub q (lower a))

/-- One row returned by `search_combined`. -/
structure CombinedResult where
  id : Nat
  title : Str
  authors : List Str
  keywords : List Str
  relevance_score : ℚ
  snippet : Option Str
  folder_name : Option Str
  abstract : Option Str
deriving DecidableEq, Repr

/-- Python truthiness of the optional text query (`if not text_query`):
`None` and the empty string are falsy. -/
def truthyText : Option Str → Bool
| none => false
| some s => !s.isEmpty

/-- Python truthiness of the optional keyword list (`if not keywords`):
`None` and the empty list are falsy. -/
def truthyKws : Option (List Str) → Bool
| none => false
| some l => !l.isEmpty

/-- The text condition of `Database.search_combined` (src/app/db.py):
`LOWER(title) LIKE %q% OR LOWER(abstract) LIKE %q%`. -/
def combinedTextCond (text_query : Str) (d : Doc) : Bool :=
  isSub (lower text_query) (lower d.title)
  || (match d.abstract with | some a => isSub (lower text_query) (lower a) | none => false)

/-- The keyword conditions of `Database.search_combined`: note the source
appends one condition per keyword for both "all" branches, and all collected
conditions are later joined with OR. -/
def combinedKeywordConds (keywords : List Str) (keyword_mode : String)
    (exact_keyword_match : Bool) (d : Doc) : List Bool :=
  let ks := d.keywords.getD []
  if exact_keyword_match then
    if keyword_mode = "all" then
      keywords.map (fun q => ks.any (fun k => lower (lower q) == lower k))
    else
      [ks.any (fun k => (keywords.map (fun q => lower q)).contains (lower k))]
  else
    if keyword_mode = "all" then
      keywords.map (fun q => ks.any (fun k => isSub (lower q) (lower k)))
    else
      [keywords.any (fun q => ks.any (fun k => isSub (lower q) (lower k)))]

/-- The complete WHERE predicate of `Database.search_combined`: OR of the
collected text/keyword conditions (vacuously true when both inputs are
falsy), AND folder condition AND equality filters. -/
def combinedWherePred (text_query : Option Str) (keywords : Option (List Str))
    (keyword_mode : String) (exact_keyword_match : Bool) (folder_name : Option Str)
    (filters : Option Filters) (d : Doc) : Bool :=
  let text_conditions :=
    if truthyText text_query then [combinedTextCond (text_query.getD []) d] else []
  let keyword_conditions :=
    if truthyKws keywords then
      combinedKeywordConds (keywords.getD []) keyword_mode exact_keyword_match d
    else []
  let search_conditions := text_conditions ++ keyword_conditions
  (if search_conditions.isEmpty then true else search_conditions.any id)
    && folderOk folder_name d && filtersOk filters d

/-- `Database.search_combined` (src/app/db.py): WHERE predicate, ordered by
`created_at` descending, truncated to `limit`, constant relevance `1.0`. -/
def searchCombinedDb (table : List Doc) (text_query : Option Str)
    (keywords : Option (List Str)) (keyword_mode : String)
    (exact_keyword_match : Bool) (folder_name : Option Str)
    (filters : Option Filters) (limit : Nat) (include_snippet : Bool) :
    List CombinedResult :=
  let selected := table.filter (combinedWherePred text_query keywords keyword_mode
    exact_keyword_match folder_name filters)
  ((List.insertionSort recencyGe selected).take limit).map (fun d =>
    { id := d.id, title := d.title, authors := d.authors,
      keywords := d.keywords.getD [], relevance_score := 1,
      snippet := if include_snippet then d.abstract.map (fun a => a.take 200) else none,
      folder_name := d.folder_name, abstract := d.abstract })

/-- The `/search/combined` endpoint `search_combined` (src/app/api.py):
reject the request with HTTP 400 when both `text_query` and `keywords` are
falsy, before any store access; otherwise delegate to
`Database.search_combined`. -/
def searchCombinedApi (table : List Doc) (text_query : Option Str)
    (keywords : Option (List Str)) (keyword_mode : String)
    (exact_keyword_match : Bool) (folder_name : Option Str)
    (filters : Option Filters) (limit : Nat) (include_snippet : Bool) :
    Except String (List CombinedResult) :=
  if !truthyText text_query && !truthyKws keywords then
    Except.error "Either text_query or keywords must be provided"
  else
    Except.ok (searchCombinedDb table text_query keywords keyword_mode
      exact_keyword_match folder_name filters limit include_snippet)

/-- A `pathlib.Path` value: an absolute/relative flag plus components. -/
structure PyPath where
  absolute : Bool
  parts : List String
deriving DecidableEq, Repr

/-- `Path(p).relative_to(base)`: strip the leading `base` components,
`None` models the `ValueError` raised when `base` is not a prefix. -/
def relative_to (p base : PyPath) : Option PyPath :=
  if p.absolute == base.absolute && base.parts.isPrefixOf p.parts then
    some { absolute := false, parts := p.parts.drop base.parts.length }
  else none

/-- `convert_to_relative_paths` (src/ingest.py): map each scanned path to a
path relative to `base_dir`, keeping it unchanged when it lies outside
`base_dir` (the `except ValueError` branch). -/
def convert_to_relative_paths (absolute_paths : List PyPath) (base_dir : PyPath) :
    List PyPath :=
  absolute_paths.map (fun p =>
    match relative_to p base_dir with
    | some r => r
    | none => p)

/-- The deduplication step of `main` (src/ingest.py):
`new_relative_paths = convert_to_relative_paths(scan, base) - known`, where
`known` are the stored path strings used exactly as stored. -/
def dedupIngestTargets (scan : List PyPath) (base : PyPath) (known : List PyPath) :
    List PyPath :=
  (convert_to_relative_paths scan base).filter (fun p => !(decide (p ∈ known)))

/-- Modelled from the spec: the deduplication as §4.6 words it, normalizing
BOTH the scanned and the stored paths relative to the base directory before
the set difference; stated for comparison with `dedupIngestTargets`. -/
def dedupIngestTargets_spec (scan : List PyPath) (base : PyPath)
    (known : List PyPath) : List PyPath :=
  (convert_to_relative_paths scan base).filter
    (fun p => !(decide (p ∈ convert_to_relative_paths known base)))

end BetArxiv

namespace BetArxiv

/-
Helper lemmas about the shared similarity pipeline
(filter by threshold, stable sort by score descending, truncate).
-/

lemma sim_pipeline_threshold (dist : List ℚ → List ℚ → ℚ) (table : List Doc)
    (te ae : List ℚ) (limit : Nat) (thr : ℚ) (w : ℚ × ℚ) (snip : Bool)
    (folder : Option Str) (excl : Option Nat) :
    ∀ r ∈ similarityPipeline dist table te ae limit thr w snip folder excl,
      thr ≤ r.similarity_score := by
  intro r hr
  simp only [similarityPipeline] at hr
  have h1 := List.take_subset _ _ hr
  rw [(List.perm_insertionSort simGe _).mem_iff] at h1
  exact of_decide_eq_true (List.mem_filter.mp h1).2

lemma sim_pipeline_mono (dist : List ℚ → List ℚ → ℚ) (table : List Doc)
    (te ae : List ℚ) (limit : Nat) (t1 t2 : ℚ) (w : ℚ × ℚ) (snip : Bool)
    (folder : Option Str) (excl : Option Nat) (h : t1 ≤ t2) :
    (similarityPipeline dist table te ae limit t2 w snip folder excl).length
      ≤ (similarityPipeline dist table te ae limit t1 w snip folder excl).length := by
  simp only [similarityPipeline, List.length_take]
  refine min_le_min (le_refl _) ?_
  rw [(List.perm_insertionSort simGe _).length_eq,
    (List.perm_insertionSort simGe _).length_eq]
  refine (List.monotone_filter_right _ ?_).length_le
  intro r hr
  exact decide_eq_true (le_trans h (of_decide_eq_true hr))

lemma sim_pipeline_sorted (dist : List ℚ → List ℚ → ℚ) (table : List Doc)
    (te ae : List ℚ) (limit : Nat) (thr : ℚ) (w : ℚ × ℚ) (snip : Bool)
    (folder : Option Str) (excl : Option Nat) :
    (similarityPipeline dist table te ae limit thr w snip folder excl).Pairwise
      (fun a b => b.similarity_score ≤ a.similarity_score) := by
  simp only [similarityPipeline]
  exact List.Pairwise.sublist (List.take_sublist _ _) (List.sorted_insertionSort simGe _)

lemma sim_pipeline_len_le (dist : List ℚ → List ℚ → ℚ) (table : List Doc)
    (te ae : List ℚ) (limit : Nat) (thr : ℚ) (w : ℚ × ℚ) (snip : Bool)
    (folder : Option Str) (excl : Option Nat) :
    (similarityPipeline dist table te ae limit thr w snip folder excl).length ≤ limit := by
  simp only [similarityPipeline, List.length_take]
  exact min_le_left _ _

/-- Case analysis on `findSimilarDocuments`: for a fixed table, reference id,
limit and folder it is either the empty list for every threshold and weight
pair (missing/unembedded reference) or the similarity pipeline run on the
reference embeddings. -/
lemma findSimilarDocuments_shape (dist : List ℚ → List ℚ → ℚ) (table : List Doc)
    (docId limit : Nat) (snip : Bool) (folder : Option Str) :
    (∀ thr tw aw : ℚ, findSimilarDocuments dist table docId limit thr tw aw snip folder = [])
    ∨ (∃ rte rae, ∀ thr tw aw : ℚ,
        findSimilarDocuments dist table docId limit thr tw aw snip folder
          = similarityPipeline dist table rte rae limit thr (normalize_weights tw aw)
              snip folder (some docId)) := by
  rcases hf : table.find? (fun d => d.id == docId) with _ | ref
  · left
    intro thr tw aw
    simp only [findSimilarDocuments, hf]
  · rcases ht : truthyEmb ref.title_embedding with _ | rte
    · left
      intro thr tw aw
      rcases ha : truthyEmb ref.abstract_embedding with _ | rae <;>
        simp only [findSimilarDocuments, hf, ht, ha]
    · rcases ha : truthyEmb ref.abstract_embedding with _ | rae
      · left
        intro thr tw aw
        simp only [findSimilarDocuments, hf, ht, ha]
      · right
        exact ⟨rte, rae, fun thr tw aw => by simp only [findSimilarDocuments, hf, ht, ha]⟩

end BetArxiv

namespace BetArxiv

/-- C5: for positive weight pairs, normalization returns a pair summing to
exactly 1, and normalizing the normalized pair returns it unchanged. -/
theorem normalize_weights_sum_idem (a b : ℚ) (ha : 0 < a) (hb : 0 < b) :
    (normalize_weights a b).1 + (normalize_weights a b).2 = 1
    ∧ normalize_weights (normalize_weights a b).1 (normalize_weights a b).2
        = normalize_weights a b := by
  have hab : 0 < a + b := add_pos ha hb
  have h1 : normalize_weights a b = (a/(a+b), b/(a+b)) := by
    simp [normalize_weights, hab]
  have hsum : a/(a+b) + b/(a+b) = 1 := by
    rw [div_add_div_same, div_self (ne_of_gt hab)]
  refine ⟨by rw [h1]; exact hsum, ?_⟩
  rw [h1]
  simp only [normalize_weights, hsum]
  norm_num

theorem normalize_weights_sum_idem_witness :
    (0:ℚ) < 3 ∧ (0:ℚ) < 1
    ∧ ((normalize_weights 3 1).1 + (normalize_weights 3 1).2 = 1
      ∧ normalize_weights (normalize_weights 3 1).1 (normalize_weights 3 1).2
          = normalize_weights 3 1) :=
  ⟨by norm_num, by norm_num, normalize_weights_sum_idem 3 1 (by norm_num) (by norm_num)⟩

/-- C3 counterexample: weight normalization does not fail on the pair
`(0, 0)` — it silently substitutes the default weights `(0.5, 0.5)` — and a
negative weight with positive sum is accepted rather than rejected. -/
theorem normalize_weights_no_failure :
    normalize_weights 0 0 = ((1:ℚ)/2, (1:ℚ)/2)
    ∧ normalize_weights 2 (-1) = ((2:ℚ), (-1:ℚ)) := by
  constructor <;> norm_num [normalize_weights]

/-- C3 amended: when the two weights sum to a non-positive value (in
particular `(0, 0)`), both similarity searches silently proceed with the
default weights `(0.5, 0.5)` instead of failing. -/
theorem zero_weights_substituted (tw aw : ℚ) (h : tw + aw ≤ 0)
    (dist : List ℚ → List ℚ → ℚ) (table : List Doc) (te ae : List ℚ)
    (limit : Nat) (thr : ℚ) (snip : Bool) (folder : Option Str)
    (excl : Option Nat) (docId : Nat) :
    findSimilarByEmbeddings dist table te ae limit thr tw aw snip folder excl
      = findSimilarByEmbeddings dist table te ae limit thr ((1:ℚ)/2) ((1:ℚ)/2) snip folder excl
    ∧ findSimilarDocuments dist table docId limit thr tw aw snip folder
      = findSimilarDocuments dist table docId limit thr ((1:ℚ)/2) ((1:ℚ)/2) snip folder := by
  have hw : normalize_weights tw aw = normalize_weights ((1:ℚ)/2) ((1:ℚ)/2) := by
    have h1 : normalize_weights tw aw = ((1:ℚ)/2, (1:ℚ)/2) := by
      simp [normalize_weights, not_lt.mpr h]
    have h2 : normalize_weights ((1:ℚ)/2) ((1:ℚ)/2) = ((1:ℚ)/2, (1:ℚ)/2) := by
      norm_num [normalize_weights]
    rw [h1, h2]
  constructor
  · simp only [findSimilarByEmbeddings]
    rw [hw]
  · rcases findSimilarDocuments_shape dist table docId limit snip folder with h0 | ⟨rte, rae, hp⟩
    · rw [h0 thr tw aw, h0 thr ((1:ℚ)/2) ((1:ℚ)/2)]
    · rw [hp thr tw aw, hp thr ((1:ℚ)/2) ((1:ℚ)/2), hw]

theorem zero_weights_substituted_witness :
    ((0:ℚ) + 0 ≤ 0)
    ∧ (findSimilarByEmbeddings (fun _ _ => 0) [] [] [] 10 0 0 0 true none none
        = findSimilarByEmbeddings (fun _ _ => 0) [] [] [] 10 0 ((1:ℚ)/2) ((1:ℚ)/2) true none none
      ∧ findSimilarDocuments (fun _ _ => 0) [] 0 10 0 0 0 true none
        = findSimilarDocuments (fun _ _ => 0) [] 0 10 0 ((1:ℚ)/2) ((1:ℚ)/2) true none) :=
  ⟨by norm_num,
    zero_weights_substituted 0 0 (by norm_num) (fun _ _ => 0) [] [] [] 10 0 true none none 0⟩

/-- C2: both similarity searches return only results with score at least the
threshold, and a lower threshold never yields fewer results than a higher
one on the same corpus with otherwise identical parameters. -/
theorem similarity_threshold_and_monotone (dist : List ℚ → List ℚ → ℚ)
    (table : List Doc) (te ae : List ℚ) (limit : Nat) (t1 t2 tw aw : ℚ)
    (snip : Bool) (folder : Option Str) (excl : Option Nat) (docId : Nat)
    (h : t1 ≤ t2) :
    (∀ r ∈ findSimilarByEmbeddings dist table te ae limit t2 tw aw snip folder excl,
        t2 ≤ r.similarity_score)
    ∧ (findSimilarByEmbeddings dist table te ae limit t2 tw aw snip folder excl).length
        ≤ (findSimilarByEmbeddings dist table te ae limit t1 tw aw snip folder excl).length
    ∧ (∀ r ∈ findSimilarDocuments dist table docId limit t2 tw aw snip folder,
        t2 ≤ r.similarity_score)
    ∧ (findSimilarDocuments dist table docId limit t2 tw aw snip folder).length
        ≤ (findSimilarDocuments dist table docId limit t1 tw aw snip folder).length := by
  refine ⟨?_, ?_, ?_, ?_⟩
  · exact sim_pipeline_threshold dist table te ae limit t2 _ snip folder excl
  · exact sim_pipeline_mono dist table te ae limit t1 t2 _ snip folder excl h
  · rcases findSimilarDocuments_shape dist table docId limit snip folder with h0 | ⟨rte, rae, hp⟩
    · rw [h0 t2 tw aw]
      intro r hr
      exact absurd hr (List.not_mem_nil r)
    · rw [hp t2 tw aw]
      exact sim_pipeline_threshold dist table rte rae limit t2 _ snip folder (some docId)
  · rcases findSimilarDocuments_shape dist table docId limit snip folder with h0 | ⟨rte, rae, hp⟩
    · rw [h0 t2 tw aw, h0 t1 tw aw]
    · rw [hp t2 tw aw, hp t1 tw aw]
      exact sim_pipeline_mono dist table rte rae limit t1 t2 _ snip folder (some docId) h

theorem similarity_threshold_and_monotone_witness :
    ((0:ℚ) ≤ 1)
    ∧ ((∀ r ∈ findSimilarByEmbeddings (fun _ _ => 0) [] [] [] 5 1 1 1 true none none,
          (1:ℚ) ≤ r.similarity_score)
      ∧ (findSimilarByEmbeddings (fun _ _ => 0) [] [] [] 5 1 1 1 true none none).length
          ≤ (findSimilarByEmbeddings (fun _ _ => 0) [] [] [] 5 0 1 1 true none none).length
      ∧ (∀ r ∈ findSimilarDocuments (fun _ _ => 0) [] 0 5 1 1 1 true none,
          (1:ℚ) ≤ r.similarity_score)
      ∧ (findSimilarDocuments (fun _ _ => 0) [] 0 5 1 1 1 true none).length
          ≤ (findSimilarDocuments (fun _ _ => 0) [] 0 5 0 1 1 true none).length) :=
  ⟨by norm_num,
    similarity_threshold_and_monotone (fun _ _ => 0) [] [] [] 5 0 1 1 1 true none none 0
      (by norm_num)⟩

/-- C4 amended: both similarity searches return a list sorted by
`similarity_score` descending and truncated to `limit`; no `document_id`
tie-break is applied (see the counterexample). -/
theorem similarity_sorted_truncated (dist : List ℚ → List ℚ → ℚ)
    (table : List Doc) (te ae : List ℚ) (limit : Nat) (thr tw aw : ℚ)
    (snip : Bool) (folder : Option Str) (excl : Option Nat) (docId : Nat) :
    (findSimilarByEmbeddings dist table te ae limit thr tw aw snip folder excl).Pairwise
        (fun a b => b.similarity_score ≤ a.similarity_score)
    ∧ (findSimilarByEmbeddings dist table te ae limit thr tw aw snip folder excl).length ≤ limit
    ∧ (findSimilarDocuments dist table docId limit thr tw aw snip folder).Pairwise
        (fun a b => b.similarity_score ≤ a.similarity_score)
    ∧ (findSimilarDocuments dist table docId limit thr tw aw snip folder).length ≤ limit := by
  refine ⟨?_, ?_, ?_, ?_⟩
  · exact sim_pipeline_sorted dist table te ae limit thr _ snip folder excl
  · exact sim_pipeline_len_le dist table te ae limit thr _ snip folder excl
  · rcases findSimilarDocuments_shape dist table docId limit snip folder with h0 | ⟨rte, rae, hp⟩
    · rw [h0 thr tw aw]
      exact List.Pairwise.nil
    · rw [hp thr tw aw]
      exact sim_pipeline_sorted dist table rte rae limit thr _ snip folder (some docId)
  · rcases findSimilarDocuments_shape dist table docId limit snip folder with h0 | ⟨rte, rae, hp⟩
    · rw [h0 thr tw aw]
      exact Nat.zero_le limit
    · rw [hp thr tw aw]
      exact sim_pipeline_len_le dist table rte rae limit thr _ snip folder (some docId)

end BetArxiv

namespace BetArxiv

/-- A document whose two keywords `mla` and `mlb` both contain the query
keyword `ml` as a substring. -/
def docML : Doc :=
  { id := 1, title := ['t'], abstract := none, authors := [],
    keywords := some [['m','l','a'], ['m','l','b']],
    title_embedding := none, abstract_embedding := none, folder_name := none,
    publication_year := none, journal_name := none, status := none, created_at := 0 }

/-- Two candidate documents with identical embeddings, differing only in id;
the table lists id 2 before id 1. -/
def docSimA : Doc :=
  { id := 1, title := ['a'], abstract := none, authors := [], keywords := none,
    title_embedding := some [1], abstract_embedding := some [1], folder_name := none,
    publication_year := none, journal_name := none, status := none, created_at := 0 }

def docSimB : Doc := { docSimA with id := 2 }

/-- C4 counterexample: with two candidates of equal score, the result is NOT
ordered by document id ascending among ties — the scan order of the table
(id 2 before id 1) is kept, so the claimed ordering predicate (score
descending with ties broken by id ascending) fails on the output. -/
theorem similarity_no_id_tiebreak :
    ¬ ((findSimilarByEmbeddings (fun _ _ => 0) [docSimB, docSimA] [1] [1] 10 0
          ((3:ℚ)/4) ((1:ℚ)/4) false none none).Pairwise
        (fun a b => b.similarity_score < a.similarity_score
          ∨ (a.similarity_score = b.similarity_score ∧ a.id < b.id))) := by
  intro hp
  have hcomp : findSimilarByEmbeddings (fun _ _ => 0) [docSimB, docSimA] [1] [1] 10 0
      ((3:ℚ)/4) ((1:ℚ)/4) false none none
      = [{ id := 2, title := ['a'], authors := [], title_similarity := 1,
           abstract_similarity := 1, similarity_score := 1, snippet := none,
           folder_name := none },
         { id := 1, title := ['a'], authors := [], title_similarity := 1,
           abstract_similarity := 1, similarity_score := 1, snippet := none,
           folder_name := none }] := by
    simp [findSimilarByEmbeddings, similarityPipeline, normalize_weights, folderOk,
      docSimA, docSimB, List.insertionSort, List.orderedInsert]
    norm_num [simGe]
  rw [hcomp] at hp
  rcases List.pairwise_cons.mp hp with ⟨hrel, _⟩
  have := hrel _ (List.mem_singleton.mpr rfl)
  rcases this with h | ⟨_, h⟩
  · exact absurd h (lt_irrefl 1)
  · exact absurd h (by norm_num)

/-- C10: keyword search with an empty keyword list returns the empty list
for every document table (the guard fires before any store access) and
every choice of the remaining parameters. -/
theorem keyword_empty_query (table : List Doc) (mode : String) (ex cs : Bool)
    (folder : Option Str) (limit : Nat) (snip : Bool) :
    searchByKeywords table [] mode ex cs folder limit snip = [] := rfl

/-- C9: for a non-empty keyword query, the documents returned by keyword
search are exactly (as a multiset of ids) the `limit` most recently created
documents satisfying the keyword WHERE predicate; the final match-score sort
only reorders that set. -/
theorem keyword_truncation_by_recency (table : List Doc) (keywords : List Str)
    (mode : String) (ex cs : Bool) (folder : Option Str) (limit : Nat)
    (snip : Bool) (hk : keywords ≠ []) :
    ((searchByKeywords table keywords mode ex cs folder limit snip).map
        (fun r => r.id)).Perm
      (((List.insertionSort recencyGe
          (table.filter (kwWherePred keywords mode ex cs folder))).take limit).map
        (fun d => d.id)) := by
  cases keywords with
  | nil => exact absurd rfl hk
  | cons q0 qs =>
    simp only [searchByKeywords, List.isEmpty_cons, Bool.false_eq_true, if_false]
    refine ((List.perm_insertionSort scoreGe _).map (fun r => r.id)).trans ?_
    rw [List.map_map]
    exact List.Perm.refl _

theorem keyword_truncation_by_recency_witness :
    (([['m','l']] : List Str) ≠ [])
    ∧ ((searchByKeywords [docML] [['m','l']] "all" false false none 50 true).map
          (fun r => r.id)).Perm
        (((List.insertionSort recencyGe
            ([docML].filter (kwWherePred [['m','l']] "all" false false none))).take 50).map
          (fun d => d.id)) :=
  ⟨by decide, keyword_truncation_by_recency [docML] [['m','l']] "all" false false none 50 true
    (by decide)⟩

end BetArxiv

namespace BetArxiv

/-- C1 amended: for a non-empty keyword query in EVERY search mode, every
returned document satisfies `match_score = |matched_keywords| / |query
keywords|`, where `matched_keywords` are the de-duplicated DOCUMENT
keywords matched by any query keyword (not the distinct matching query
keywords); in mode `all`, additionally every query keyword matches at
least one of the document's keywords.  The score can exceed 1.0 (see the
counterexample). -/
theorem keyword_all_score (table : List Doc) (keywords : List Str)
    (search_mode : String) (ex cs : Bool) (folder : Option Str) (limit : Nat)
    (snip : Bool) (hk : keywords ≠ []) :
    ∀ r ∈ searchByKeywords table keywords search_mode ex cs folder limit snip,
      r.match_score = (r.matched_keywords.length : ℚ) / (keywords.length : ℚ)
      ∧ (search_mode = "all" →
          ∀ q ∈ keywords, ∃ k ∈ r.keywords, kwMatch ex cs q k = true) := by
  cases keywords with
  | nil => exact absurd rfl hk
  | cons q0 qs =>
    intro r hr
    simp only [searchByKeywords, List.isEmpty_cons, Bool.false_eq_true, if_false] at hr
    rw [(List.perm_insertionSort scoreGe _).mem_iff] at hr
    rcases List.mem_map.mp hr with ⟨d, hd, hmk⟩
    have hd2 := List.take_subset _ _ hd
    rw [(List.perm_insertionSort recencyGe _).mem_iff] at hd2
    have hpred := (List.mem_filter.mp hd2).2
    simp only [kwWherePred, Bool.and_eq_true] at hpred
    obtain ⟨⟨hsome, hfold⟩, hsel⟩ := hpred
    subst hmk
    constructor
    · simp [mkKwResult]
    · intro hmode q hq
      subst hmode
      simp only [kwSelect, eq_self_iff_true, if_true, List.all_eq_true] at hsel
      have hq2 := hsel q hq
      rw [List.any_eq_true] at hq2
      rcases hq2 with ⟨k, hk2, hm⟩
      refine ⟨k, ?_, hm⟩
      simpa [mkKwResult] using hk2

theorem keyword_all_score_witness :
    (([['m','l']] : List Str) ≠ [])
    ∧ ∀ r ∈ searchByKeywords [docML] [['m','l']] "all" false false none 50 true,
        r.match_score = (r.matched_keywords.length : ℚ) / (([['m','l']] : List Str).length : ℚ)
        ∧ (("all" : String) = "all" →
            ∀ q ∈ ([['m','l']] : List Str), ∃ k ∈ r.keywords, kwMatch false false q k = true) :=
  ⟨by decide, keyword_all_score [docML] [['m','l']] "all" false false none 50 true (by decide)⟩

/-- C1 counterexample: the query keyword `ml` fuzzily matches both document
keywords of `docML`, so the single returned document has
`match_score = 2/1 = 2 > 1`, refuting both `match_score =
|matching query keywords| / |query keywords|` and `match_score ≤ 1`. -/
theorem keyword_score_exceeds_one :
    ¬ (∀ r ∈ searchByKeywords [docML] [['m','l']] "all" false false none 50 true,
        r.match_score ≤ 1) := by
  intro hall
  have hcomp : (searchByKeywords [docML] [['m','l']] "all" false false none 50 true).map
      (fun r => r.match_score) = [2] := by
    simp [searchByKeywords, kwWherePred, kwSelect, kwMatch, folderOk, docML, isSub, headMatch,
      lower, mkKwResult, matchedKeywordsList, dedupFirst, dedupFirstAux,
      List.insertionSort, List.orderedInsert]
  have h2 : (2:ℚ) ∈ (searchByKeywords [docML] [['m','l']] "all" false false none 50 true).map
      (fun r => r.match_score) := by
    rw [hcomp]
    exact List.mem_singleton.mpr rfl
  rcases List.mem_map.mp h2 with ⟨r, hr, hscore⟩
  have hle := hall r hr
  rw [hscore] at hle
  norm_num at hle

end BetArxiv

namespace BetArxiv

/-- C6: the combined-search endpoint rejects a request in which both
`text_query` and `keywords` are absent, with the HTTP-400 validation error
and before any access to the document table, for every choice of the other
parameters. -/
theorem combined_rejects_empty_query (table : List Doc) (keyword_mode : String)
    (exact_keyword_match : Bool) (folder_name : Option Str)
    (filters : Option Filters) (limit : Nat) (include_snippet : Bool) :
    searchCombinedApi table none none keyword_mode exact_keyword_match folder_name
        filters limit include_snippet
      = Except.error "Either text_query or keywords must be provided" := rfl

/-- A document whose only hit for the query `smith` is a substring (not an
exact equality) of an author entry. -/
def docSmith : Doc :=
  { id := 1, title := ['t'], abstract := none,
    authors := [['j','o','h','n',' ','s','m','i','t','h']], keywords := none,
    title_embedding := none, abstract_embedding := none, folder_name := none,
    publication_year := none, journal_name := none, status := none, created_at := 0 }

/-- A document whose only hit for the query `ml` is a keyword entry. -/
def docKw : Doc :=
  { id := 1, title := ['t'], abstract := none, authors := [],
    keywords := some [['m','l']],
    title_embedding := none, abstract_embedding := none, folder_name := none,
    publication_year := none, journal_name := none, status := none, created_at := 0 }

/-- C7 counterexample: the spec predicate (substring in title/abstract/any
author entry) and the implemented text search disagree in both directions:
a query occurring strictly inside an author entry matches per the spec but
is not returned by the code (authors are compared by equality), and a query
equal to a keyword entry is returned by the code though the spec predicate
rejects it. -/
theorem text_search_counterexample :
    textMatches_spec docSmith ['s','m','i','t','h'] = true
    ∧ search_documents [docSmith] ['s','m','i','t','h'] none 4 none = []
    ∧ textMatches_spec docKw ['m','l'] = false
    ∧ (search_documents [docKw] ['m','l'] none 4 none).map (fun r => r.id) = [1] := by
  decide

/-- C7 amended: with no folder scope or filters and a limit at least the
table size, text search returns exactly (as a multiset of ids) the
documents satisfying the implemented predicate: lower-cased query occurring
as a substring of the title or the abstract, or equal to a lower-cased
author entry, or equal to a lower-cased keyword entry. -/
theorem text_search_matches (table : List Doc) (query : Str) (k : Nat)
    (hk : table.length ≤ k) :
    ((search_documents table query none k none).map (fun r => r.id)).Perm
      ((table.filter (textWherePred query)).map (fun d => d.id)) := by
  simp only [search_documents]
  have hfil : table.filter (fun d => textWherePred query d && folderOk none d && filtersOk none d)
      = table.filter (textWherePred query) := by
    apply List.filter_congr
    intro d _
    simp [folderOk, filtersOk]
  rw [hfil]
  have hlen : (List.insertionSort recencyGe (table.filter (textWherePred query))).length ≤ k :=
    le_trans (le_of_eq (List.perm_insertionSort recencyGe _).length_eq)
      (le_trans (List.length_filter_le _ _) hk)
  rw [List.take_of_length_le hlen, List.map_map]
  exact (List.perm_insertionSort recencyGe _).map _

theorem text_search_matches_witness :
    (([docKw] : List Doc).length ≤ 4)
    ∧ ((search_documents [docKw] ['m','l'] none 4 none).map (fun r => r.id)).Perm
        (([docKw].filter (textWherePred ['m','l'])).map (fun d => d.id)) :=
  ⟨by decide, text_search_matches [docKw] ['m','l'] 4 (by decide)⟩

/-- The ingestion base directory `/data`. -/
def basePathData : PyPath := { absolute := true, parts := ["data"] }

/-- A scanned file `/data/a.pdf` inside the base directory. -/
def scanAbsA : PyPath := { absolute := true, parts := ["data", "a.pdf"] }

/-- The base-relative form `a.pdf` of `scanAbsA`. -/
def relA : PyPath := { absolute := false, parts := ["a.pdf"] }

/-- C8 counterexample: with the stored path recorded in absolute form, the
implemented dedup (which normalizes only the scanned side) re-ingests the
file, while the claimed both-sides-normalized set difference returns
nothing. -/
theorem dedup_counterexample :
    dedupIngestTargets [scanAbsA] basePathData [scanAbsA] = [relA]
    ∧ dedupIngestTargets_spec [scanAbsA] basePathData [scanAbsA] = [] := by
  decide

/-- C8 amended: deduplication is a pure set difference after normalizing
only the scanned paths, and it is idempotent: a second run against any
known-set containing both the first run's output and the previously known
paths, with the same scan, yields an empty new-set. -/
theorem dedup_second_run_empty (scan : List PyPath) (base : PyPath)
    (known known2 : List PyPath)
    (h1 : ∀ p ∈ dedupIngestTargets scan base known, p ∈ known2)
    (h2 : ∀ p ∈ known, p ∈ known2) :
    dedupIngestTargets scan base known2 = [] := by
  rw [dedupIngestTargets, List.filter_eq_nil_iff]
  intro p hp
  simp only [Bool.not_eq_true', decide_eq_false_iff_not, not_not]
  by_cases hmem : p ∈ known
  · exact h2 p hmem
  · refine h1 p ?_
    rw [dedupIngestTargets]
    exact List.mem_filter.mpr ⟨hp, by simp [hmem]⟩

theorem dedup_second_run_empty_witness :
    (∀ p ∈ dedupIngestTargets [scanAbsA] basePathData [], p ∈ [relA])
    ∧ (∀ p ∈ ([] : List PyPath), p ∈ [relA])
    ∧ dedupIngestTargets [scanAbsA] basePathData [relA] = [] :=
  ⟨by decide, by decide,
    dedup_second_run_empty [scanAbsA] basePathData [] [relA] (by decide) (by decide)⟩

end BetArxiv
